import Mathlib

/-!
Verification development for the party-coordination core of a TSS node
(package `tss`, file `tss.go`, together with the `conversion` helper
`SetupBech32Prefix`).  Pure Go functions are embedded as Lean functions;
calls into collaborating packages that are not part of the sources under
verification (p2p, storage, the MPC library) are passed in explicitly as an
environment of call results, and the calls the embedded code performs are
recorded as an event trace.
-/

namespace ThorchainTss

/-! ## MsgId derivation (tss.go, requestToMsgId) -/

/-- Modelled from the spec: `common.MsgToHashString` lives in the `common`
package, which is not among the sources under verification.  The spec says
the SessionId is a hex hash of the accumulated request bytes, deterministic
in its input; it is modelled here as a deterministic hex encoding of the
input bytes (every claim about it depends only on determinism). -/
def MsgToHashString (msg : String) : String :=
  String.mk ((msg.data.map (fun c => Nat.toDigits 16 c.toNat)).flatten)

/-- Embedding of Go `sort.Strings`: sort a list of strings into ascending
lexicographic order. -/
def sortStrings (l : List String) : List String :=
  l.insertionSort (· ≤ ·)

/-- Requests handled by `requestToMsgId` (tss.go line 171): the keygen
request with its `Keys` field and the keysign request with its `Messages`
and `SignerPubKeys` fields.  The Go structs `keygen.Request` and
`keysign.Request` are not among the sources under verification; only the
fields `requestToMsgId` reads are modelled (from the spec, section 6).
The Go default case (an unknown dynamic type) cannot arise for a closed
request type and is omitted. -/
inductive Request where
  | keygen (Keys : List String)
  | keysign (Messages : List String) (SignerPubKeys : List String)
  deriving DecidableEq

/-- Embedding of `(*TssServer).requestToMsgId` (tss.go lines 168-189): for
keygen, `dat` stays empty and the sorted keys are accumulated; for keysign,
`dat` is the sorted messages joined by commas and the sorted signer keys are
accumulated; the hash of `dat ++ keyAccumulation` is returned. -/
def requestToMsgId : Request → String
  | Request.keygen keys =>
      let keyAccumulation := String.join (sortStrings keys)
      MsgToHashString keyAccumulation
  | Request.keysign messages signerPubKeys =>
      let dat := String.intercalate "," (sortStrings messages)
      let keyAccumulation := String.join (sortStrings signerPubKeys)
      MsgToHashString (dat ++ keyAccumulation)

/-- Follows the words of the spec (section 3, SessionId): for keygen, a hex
hash of the sorted concatenation of the participants PeerPublicKeys, with no
message data. -/
def specKeygenMsgId (keys : List String) : String :=
  MsgToHashString (String.join (sortStrings keys))

/-- Follows the words of the spec (section 3, SessionId): for keysign, a hex
hash of the sorted messages-to-sign joined by commas, concatenated with the
sorted signer PeerPublicKeys. -/
def specKeysignMsgId (messages signerPubKeys : List String) : String :=
  MsgToHashString
    (String.intercalate "," (sortStrings messages) ++
      String.join (sortStrings signerPubKeys))

theorem sortStrings_congr_of_perm {l₁ l₂ : List String} (h : l₁.Perm l₂) :
    sortStrings l₁ = sortStrings l₂ :=
  List.eq_of_perm_of_sorted
    (((List.perm_insertionSort _ l₁).trans h).trans
      (List.perm_insertionSort _ l₂).symm)
    (List.sorted_insertionSort _ l₁)
    (List.sorted_insertionSort _ l₂)

/-- C1: for every keysign request, `requestToMsgId` is invariant under
permutation of the Messages list and under permutation of the SignerPubKeys
list; any two keysign requests whose Messages are permutations of each other
and whose SignerPubKeys are permutations of each other yield byte-identical
MsgId strings. -/
theorem requestToMsgId_keysign_perm_invariant
    (m₁ m₂ k₁ k₂ : List String) (hm : m₁.Perm m₂) (hk : k₁.Perm k₂) :
    requestToMsgId (Request.keysign m₁ k₁) =
      requestToMsgId (Request.keysign m₂ k₂) := by
  simp only [requestToMsgId, sortStrings_congr_of_perm hm,
    sortStrings_congr_of_perm hk]

/-- Witness for C1 at a concrete pair of permuted keysign requests. -/
theorem requestToMsgId_keysign_perm_invariant_witness :
    requestToMsgId (Request.keysign ["msgB", "msgA"] ["key2", "key1"]) =
      requestToMsgId (Request.keysign ["msgA", "msgB"] ["key1", "key2"]) :=
  requestToMsgId_keysign_perm_invariant _ _ _ _ (by decide) (by decide)

/-- C2: for every keygen request, `requestToMsgId` returns the hex hash of
the concatenation of the lexicographically sorted participant public keys
(with no message data); for every keysign request it returns the hex hash of
the sorted messages joined by commas concatenated with the sorted signer
public keys. -/
theorem requestToMsgId_matches_spec :
    (∀ keys : List String,
        requestToMsgId (Request.keygen keys) = specKeygenMsgId keys) ∧
      (∀ messages signerPubKeys : List String,
        requestToMsgId (Request.keysign messages signerPubKeys) =
          specKeysignMsgId messages signerPubKeys) :=
  ⟨fun _ => rfl, fun _ _ => rfl⟩

/-! ## Version compare (conversion.VersionLTCheck, modelled) -/

/-- Parse a decimal numeral from a character list; the empty list and any
non-digit character refuse. -/
def parseNatPart (cs : List Char) : Option Nat :=
  if cs.isEmpty then none
  else if cs.all Char.isDigit then
    some (cs.foldl (fun n c => 10 * n + (c.toNat - 48)) 0)
  else none

/-- Split a character list at every dot; `acc` holds the current segment
reversed. -/
def splitAtDots : List Char → List Char → List (List Char)
  | [], acc => [acc.reverse]
  | c :: rest, acc =>
      if c = '.' then acc.reverse :: splitAtDots rest []
      else splitAtDots rest (c :: acc)

/-- Semantic version as major.minor.patch numeric parts. -/
structure SemVer where
  major : Nat
  minor : Nat
  patch : Nat
  deriving DecidableEq

/-- Parse a `major.minor.patch` version string. -/
def parseSemVer (s : String) : Option SemVer :=
  match (splitAtDots s.data []).mapM parseNatPart with
  | some [a, b, c] => some ⟨a, b, c⟩
  | _ => none

/-- Strict precedence order on semantic versions, lexicographic in the
parts. -/
def semVerLT (a b : SemVer) : Bool :=
  decide (a.major < b.major ∨
    (a.major = b.major ∧ (a.minor < b.minor ∨
      (a.minor = b.minor ∧ a.patch < b.patch))))

/-- Modelled from the spec: `conversion.VersionLTCheck` lives in the
`conversion` package, which is not among the sources under verification.
The spec (section 9) describes it as a pure predicate
`is_older_than(peer_version, NEW_JOIN_PARTY_VERSION)` computed from
semantic-version parts; a version that does not parse yields an error. -/
def VersionLTCheck (peerVersion newVersion : String) : Except String Bool :=
  match parseSemVer peerVersion, parseSemVer newVersion with
  | some a, some b => Except.ok (semVerLT a b)
  | _, _ => Except.error "fail to parse the version"

/-- Modelled from the spec: `messages.NEWJOINPARTYVERSION` is "a single
constant" (section 9) whose value is not among the sources under
verification; the upstream repository uses "0.14.0".  Every theorem below
depends only on it being a fixed parseable version. -/
def NEWJOINPARTYVERSION : String := "0.14.0"

/-! ## joinParty (tss.go, lines 191-226) -/

/-- Record of which party-coordinator method a `joinParty` run invoked,
with the arguments it passed. -/
inductive CoordinatorCall where
  | none
  | withRetry (msgID : String) (peers : List String)
  | withLeader (msgID : String) (blockHeight : Int) (peers : List String)
      (threshold : Int)
  deriving DecidableEq

/-- Results of the calls `joinParty` makes into packages that are not among
the sources under verification: `conversion.GetPeerIDsFromPubKeys` (peer IDs
are modelled by their `String()` rendering, which is how `joinParty` uses
them), `PartyCoordinator.JoinPartyWithRetry` (online peers and an optional
error) and `PartyCoordinator.JoinPartyWithLeader` (online peers, the leader
string and an optional error).  The `sigChan` channel is passed through to
`JoinPartyWithLeader` opaquely and is omitted. -/
structure JoinPartyEnv where
  getPeerIDsFromPubKeys : List String → Except String (List String)
  joinPartyWithRetry : String → List String → List String × Option String
  joinPartyWithLeader : String → Int → List String → Int →
    List String × String × Option String

/-- Return value of `joinParty`: the Go triple `([]peer.ID, string, error)`
(a nil slice is the empty list) together with the coordinator call the run
performed. -/
structure JoinPartyResult where
  onlines : List String
  leader : String
  err : Option String
  call : CoordinatorCall
  deriving DecidableEq

/-- Embedding of `(*TssServer).joinParty` (tss.go lines 191-226): check the
version against NEWJOINPARTYVERSION; when older, convert the participants
and call `JoinPartyWithRetry` with leader "NONE"; otherwise reject an empty
participants list, convert the participants and call
`JoinPartyWithLeader`. -/
def joinParty (env : JoinPartyEnv) (msgID version : String) (blockHeight : Int)
    (participants : List String) (threshold : Int) : JoinPartyResult :=
  match VersionLTCheck version NEWJOINPARTYVERSION with
  | Except.error e =>
      ⟨[], "", some ("fail to parse the version with error:" ++ e),
        CoordinatorCall.none⟩
  | Except.ok oldJoinParty =>
    if oldJoinParty then
      match env.getPeerIDsFromPubKeys participants with
      | Except.error e =>
          ⟨[], "NONE", some ("fail to convert pub key to peer id: " ++ e),
            CoordinatorCall.none⟩
      | Except.ok peerIDs =>
          let r := env.joinPartyWithRetry msgID peerIDs
          ⟨r.1, "NONE", r.2, CoordinatorCall.withRetry msgID peerIDs⟩
    else
      if participants.length = 0 then
        ⟨[], "", some "no participants can be found", CoordinatorCall.none⟩
      else
        match env.getPeerIDsFromPubKeys participants with
        | Except.error _ =>
            ⟨[], "", some "fail to convert the public key to peer ID",
              CoordinatorCall.none⟩
        | Except.ok peersID =>
            let r := env.joinPartyWithLeader msgID blockHeight peersID threshold
            ⟨r.1, r.2.1, r.2.2,
              CoordinatorCall.withLeader msgID blockHeight peersID threshold⟩

/-- Concrete environment in which every external call succeeds: the pubkey
conversion is the identity on the list, the coordinator calls return their
peer list unchanged. -/
def idJoinPartyEnv : JoinPartyEnv :=
  ⟨fun ps => Except.ok ps,
    fun _ ps => (ps, none),
    fun _ _ ps _ => (ps, "leader-peer", none)⟩

/-- Which join-party variant a coordinator call belongs to: `some true` for
the leaderless `JoinPartyWithRetry`, `some false` for the leader-based
`JoinPartyWithLeader`, `none` when no coordinator method was invoked. -/
def variantOf : CoordinatorCall → Option Bool
  | CoordinatorCall.none => none
  | CoordinatorCall.withRetry _ _ => some true
  | CoordinatorCall.withLeader _ _ _ _ => some false

/-- C3 counterexample: a joinParty call whose version parses (it is
NEWJOINPARTYVERSION itself, hence not strictly older) and whose participant
list is empty invokes neither variant, against the claim that the
leader-based variant is invoked whenever the version is not older. -/
theorem joinParty_no_variant_on_empty_participants :
    VersionLTCheck NEWJOINPARTYVERSION NEWJOINPARTYVERSION = Except.ok false ∧
      (joinParty idJoinPartyEnv "sessionid" NEWJOINPARTYVERSION 10 [] 1).call =
        CoordinatorCall.none :=
  ⟨rfl, rfl⟩

/-- C3 (amended): for every joinParty call whose version parses, the variant
invoked is fully determined as follows: when the version is strictly older
than NEWJOINPARTYVERSION, the leaderless `JoinPartyWithRetry` is invoked
exactly when the pubkey-to-peer-ID conversion succeeds; otherwise the
leader-based `JoinPartyWithLeader` is invoked exactly when the participants
list is non-empty and the conversion succeeds; in the remaining cases
neither variant is invoked. -/
theorem joinParty_variant_selection (env : JoinPartyEnv)
    (msgID version : String) (blockHeight : Int) (participants : List String)
    (threshold : Int) (old : Bool)
    (hv : VersionLTCheck version NEWJOINPARTYVERSION = Except.ok old) :
    variantOf (joinParty env msgID version blockHeight participants threshold).call =
      (if old then
        match env.getPeerIDsFromPubKeys participants with
        | Except.ok _ => some true
        | Except.error _ => none
      else if participants.length = 0 then none
      else
        match env.getPeerIDsFromPubKeys participants with
        | Except.ok _ => some false
        | Except.error _ => none) := by
  cases old with
  | false =>
    by_cases hp : participants.length = 0
    · simp [joinParty, hv, hp, variantOf]
    · cases h : env.getPeerIDsFromPubKeys participants <;>
        simp [joinParty, hv, hp, h, variantOf]
  | true =>
    cases h : env.getPeerIDsFromPubKeys participants <;>
      simp [joinParty, hv, h, variantOf]

/-- Witness for the amended C3 at a concrete old-version call where the
conversion succeeds, so the leaderless variant is invoked. -/
theorem joinParty_variant_selection_witness :
    variantOf (joinParty idJoinPartyEnv "sessionid" "0.13.0" 10 ["p1"] 1).call =
      some true := by
  have h := joinParty_variant_selection idJoinPartyEnv "sessionid" "0.13.0"
    10 ["p1"] 1 true rfl
  simpa using h

/-- C8: a joinParty call that selects the leader-based variant rejects an
empty participants list immediately with an error and no coordinator call,
while the leaderless variant performs no such emptiness check: on an empty
list with a successful conversion it still invokes `JoinPartyWithRetry`. -/
theorem joinParty_leader_rejects_empty_participants (env : JoinPartyEnv)
    (msgID vLeader vRetry : String) (blockHeight : Int) (threshold : Int)
    (ps : List String)
    (hL : VersionLTCheck vLeader NEWJOINPARTYVERSION = Except.ok false)
    (hR : VersionLTCheck vRetry NEWJOINPARTYVERSION = Except.ok true)
    (hconv : env.getPeerIDsFromPubKeys [] = Except.ok ps) :
    joinParty env msgID vLeader blockHeight [] threshold =
        ⟨[], "", some "no participants can be found", CoordinatorCall.none⟩ ∧
      (joinParty env msgID vRetry blockHeight [] threshold).call =
        CoordinatorCall.withRetry msgID ps := by
  constructor
  · simp [joinParty, hL]
  · simp [joinParty, hR, hconv]

/-- Witness for C8 at concrete versions on either side of
NEWJOINPARTYVERSION with an empty participants list. -/
theorem joinParty_leader_rejects_empty_participants_witness :
    joinParty idJoinPartyEnv "sessionid" "0.14.0" 7 [] 2 =
        ⟨[], "", some "no participants can be found", CoordinatorCall.none⟩ ∧
      (joinParty idJoinPartyEnv "sessionid" "0.13.0" 7 [] 2).call =
        CoordinatorCall.withRetry "sessionid" [] :=
  joinParty_leader_rejects_empty_participants idJoinPartyEnv "sessionid"
    "0.14.0" "0.13.0" 7 2 [] rfl rfl rfl

/-- C10: the leaderless join-party path always reports the leader
identifier "NONE": whatever the conversion outcome the returned leader
string is "NONE"; when the conversion fails the error is returned, and when
it succeeds `JoinPartyWithRetry` is invoked. -/
theorem joinParty_leaderless_reports_none (env : JoinPartyEnv)
    (msgID version : String) (blockHeight : Int) (participants : List String)
    (threshold : Int)
    (hv : VersionLTCheck version NEWJOINPARTYVERSION = Except.ok true) :
    (joinParty env msgID version blockHeight participants threshold).leader =
        "NONE" ∧
      (∀ e, env.getPeerIDsFromPubKeys participants = Except.error e →
        (joinParty env msgID version blockHeight participants threshold).err =
          some ("fail to convert pub key to peer id: " ++ e)) ∧
      (∀ ps, env.getPeerIDsFromPubKeys participants = Except.ok ps →
        (joinParty env msgID version blockHeight participants threshold).call =
          CoordinatorCall.withRetry msgID ps) := by
  refine ⟨?_, ?_, ?_⟩
  · cases h : env.getPeerIDsFromPubKeys participants <;> simp [joinParty, hv, h]
  · intro e he
    simp [joinParty, hv, he]
  · intro ps hps
    simp [joinParty, hv, hps]

/-- Witness for C10 at a concrete old-version call. -/
theorem joinParty_leaderless_reports_none_witness :
    (joinParty idJoinPartyEnv "sessionid" "0.13.0" 3 ["p1"] 1).leader =
      "NONE" := by
  have h := joinParty_leaderless_reports_none idJoinPartyEnv "sessionid"
    "0.13.0" 3 ["p1"] 1 rfl
  exact h.1

/-! ## Global bech32 prefix setup (conversion.SetupBech32Prefix) -/

/-- Global cosmos-sdk bech32 prefix configuration: the six prefix strings
that `SetupBech32Prefix` writes through `sdk.GetConfig()`. -/
structure Bech32Config where
  accountAddr : String
  accountPub : String
  validatorAddr : String
  validatorPub : String
  consensusAddr : String
  consensusPub : String
  deriving DecidableEq

/-- Embedding of `conversion.SetupBech32Prefix` as a transformer of the
process-wide sdk config: it unconditionally sets the account, validator and
consensus-node prefixes to fixed constants; the function body contains no
guard against repeated calls. -/
def SetupBech32Prefix (c : Bech32Config) : Bech32Config :=
  { c with
    accountAddr := "ordinox"
    accountPub := "thorpub"
    validatorAddr := "ordinox"
    validatorPub := "thorvpub"
    consensusAddr := "or"
    consensusPub := "thorcpub" }

/-! ## Server construction (tss.go, NewTss) and lifecycle -/

/-- Modelled from the spec: the fields of `common.TssConfig` (the `common`
package is not among the sources under verification) that section 6 of the
spec lists and tss.go reads; timeouts are abstract durations. -/
structure TssConfig where
  keyGenTimeout : Nat
  keySignTimeout : Nat
  partyTimeout : Nat
  preParamTimeout : Nat
  enableMonitor : Bool
  deriving DecidableEq

/-- Pre-parameters of the external MPC library
(`bkeygen.LocalPreParams`): tss.go only ever consults the library call
`Validate()`, so a pre-parameter value is carried by that validity bit. -/
structure LocalPreParams where
  valid : Bool
  deriving DecidableEq

/-- Calls `NewTss` makes into packages that are not among the sources under
verification, with their results: `sdk.MarshalPubKey` on the node key,
`storage.NewFileStateMgr`, `stateManager.RetrieveP2PAddresses` (multiaddrs
rendered as strings), `p2p.NewCommunication` (keyed by the bootstrap peer
list it receives), `bkeygen.GeneratePreParams` (keyed by the timeout),
`conversion.GetPriKeyRawBytes` and `comm.Start`. -/
structure NewTssEnv where
  marshalPubKey : Except String String
  newFileStateMgr : Except String Unit
  retrieveP2PAddresses : Except String (List String)
  newCommunication : List String → Except String Unit
  generatePreParams : Nat → Except String LocalPreParams
  getPriKeyRawBytes : Except String Unit
  commStart : Except String Unit

/-- External calls a `NewTss` run performs, in order, with the arguments
that matter to the claims. -/
inductive NewTssEvent where
  | setupBech32Prefix
  | newCommunication (bootstrapPeers : List String)
  | generatePreParams (timeout : Nat)
  | commStart
  | newPartyCoordinator (partyTimeout : Nat)
  | newSignatureNotifier
  deriving DecidableEq

/-- Embedding of the `TssServer` struct fields that the embedded operations
touch: the configuration, the bech32 node public key, the pre-parameters in
use, whether the stop channel has been closed, and whether metrics are
enabled. -/
structure TssServer where
  conf : TssConfig
  localNodePubKey : String
  preParams : LocalPreParams
  stopChanClosed : Bool
  monitorEnabled : Bool
  deriving DecidableEq

/-- Tail of `NewTss` after the pre-parameter block (tss.go lines 102-134):
reject pre-parameters that fail validation, fetch the raw private key,
start the p2p communication (recording the call), create the party
coordinator and the signature notifier, and assemble the server with an
open stop channel. -/
def NewTssFinish (env : NewTssEnv) (conf : TssConfig) (pubKey : String)
    (pp : LocalPreParams) (trace : List NewTssEvent) :
    Except String TssServer × List NewTssEvent :=
  if pp.valid = false then (Except.error "invalid preparams", trace)
  else
    match env.getPriKeyRawBytes with
    | Except.error _ => (Except.error "fail to get private key", trace)
    | Except.ok _ =>
      match env.commStart with
      | Except.error e =>
          (Except.error ("fail to start p2p network: " ++ e),
            trace ++ [NewTssEvent.commStart])
      | Except.ok _ =>
          (Except.ok
            { conf := conf
              localNodePubKey := pubKey
              preParams := pp
              stopChanClosed := false
              monitorEnabled := conf.enableMonitor },
            trace ++ [NewTssEvent.commStart,
              NewTssEvent.newPartyCoordinator conf.partyTimeout,
              NewTssEvent.newSignatureNotifier])

/-- Pre-parameter generation arm of `NewTss` (tss.go lines 96-101): taken
when the supplied pre-parameters are nil or fail validation; a generation
error aborts construction, otherwise the run continues with the generated
pre-parameters. -/
def NewTssGenerate (env : NewTssEnv) (conf : TssConfig) (pubKey : String)
    (trace : List NewTssEvent) : Except String TssServer × List NewTssEvent :=
  match env.generatePreParams conf.preParamTimeout with
  | Except.error e =>
      (Except.error ("fail to generate pre parameters: " ++ e),
        trace ++ [NewTssEvent.generatePreParams conf.preParamTimeout])
  | Except.ok q =>
      NewTssFinish env conf pubKey q
        (trace ++ [NewTssEvent.generatePreParams conf.preParamTimeout])

/-- Bootstrap peer list of `NewTss` (tss.go lines 79-86): the saved
address-book peers followed by the command-line peers when
`RetrieveP2PAddresses` succeeds, the command-line peers alone when it
fails. -/
def bootstrapList (env : NewTssEnv) (cmdBootstrapPeers : List String) :
    List String :=
  match env.retrieveP2PAddresses with
  | Except.error _ => cmdBootstrapPeers
  | Except.ok savedPeers => savedPeers ++ cmdBootstrapPeers

/-- Embedding of `NewTss` (tss.go lines 52-135): marshal the node public
key, create the file state manager, create the communication layer on the
bootstrap peer list, ensure validated pre-parameters (generating fresh ones
when the supplied ones are nil or invalid), and finish construction. -/
def NewTss (env : NewTssEnv) (cmdBootstrapPeers : List String)
    (conf : TssConfig) (preParams : Option LocalPreParams) :
    Except String TssServer × List NewTssEvent :=
  match env.marshalPubKey with
  | Except.error _ => (Except.error "fail to genearte the key", [])
  | Except.ok pubKey =>
    match env.newFileStateMgr with
    | Except.error _ => (Except.error "fail to create file state manager", [])
    | Except.ok _ =>
      match env.newCommunication (bootstrapList env cmdBootstrapPeers) with
      | Except.error e =>
          (Except.error ("fail to create communication layer: " ++ e),
            [NewTssEvent.newCommunication (bootstrapList env cmdBootstrapPeers)])
      | Except.ok _ =>
        match preParams with
        | none =>
            NewTssGenerate env conf pubKey
              [NewTssEvent.newCommunication (bootstrapList env cmdBootstrapPeers)]
        | some p =>
          if p.valid then
            NewTssFinish env conf pubKey p
              [NewTssEvent.newCommunication (bootstrapList env cmdBootstrapPeers)]
          else
            NewTssGenerate env conf pubKey
              [NewTssEvent.newCommunication (bootstrapList env cmdBootstrapPeers)]

/-- Embedding of `(*TssServer).Start` (tss.go lines 138-141): it logs a
line and returns nil; the pair holds the returned error and the server
after the call. -/
def TssServer.Start (t : TssServer) : Option String × TssServer :=
  (none, t)

/-- Calls `Stop` makes into the packages that are not among the sources
under verification. -/
inductive StopEvent where
  | p2pStop
  | partyCoordinatorStop
  deriving DecidableEq

/-- Embedding of `(*TssServer).Stop` (tss.go lines 144-153): Go `close` on
an already-closed channel is a runtime panic, modelled as the error value;
otherwise the stop channel is marked closed and the p2p communication and
the party coordinator are stopped (a p2p stop error is only logged). -/
def TssServer.Stop (t : TssServer) :
    Except String (TssServer × List StopEvent) :=
  if t.stopChanClosed then Except.error "close of closed channel"
  else
    Except.ok ({ t with stopChanClosed := true },
      [StopEvent.p2pStop, StopEvent.partyCoordinatorStop])

/-- Concrete constructor environment in which every external call succeeds:
the address book holds one saved peer and pre-parameter generation returns
valid pre-parameters. -/
def okNewTssEnv : NewTssEnv :=
  ⟨Except.ok "bech32pubkey",
    Except.ok (),
    Except.ok ["savedpeer"],
    fun _ => Except.ok (),
    fun _ => Except.ok ⟨true⟩,
    Except.ok (),
    Except.ok ()⟩

/-- Concrete configuration for the witnesses. -/
def demoConf : TssConfig := ⟨30, 30, 60, 90, false⟩

/-- Concrete constructed server for the witnesses. -/
def demoServer : TssServer := ⟨demoConf, "bech32pubkey", ⟨true⟩, false, false⟩

theorem NewTssFinish_fst_ok (env : NewTssEnv) (conf : TssConfig)
    (pubKey : String) (pp : LocalPreParams) (trace : List NewTssEvent)
    (s : TssServer)
    (h : (NewTssFinish env conf pubKey pp trace).1 = Except.ok s) :
    s.preParams = pp ∧ pp.valid = true := by
  unfold NewTssFinish at h
  split at h
  · simp at h
  · split at h
    · simp at h
    · split at h
      · simp at h
      · simp at h
        subst h
        simp_all

theorem NewTssFinish_trace_mono (env : NewTssEnv) (conf : TssConfig)
    (pubKey : String) (pp : LocalPreParams) (trace : List NewTssEvent)
    (x : NewTssEvent) (hx : x ∈ trace) :
    x ∈ (NewTssFinish env conf pubKey pp trace).2 := by
  unfold NewTssFinish
  split
  · exact hx
  · split
    · exact hx
    · split
      · simp [hx]
      · simp [hx]

theorem NewTssFinish_commStart_of_ok (env : NewTssEnv) (conf : TssConfig)
    (pubKey : String) (pp : LocalPreParams) (trace : List NewTssEvent)
    (s : TssServer)
    (h : (NewTssFinish env conf pubKey pp trace).1 = Except.ok s) :
    NewTssEvent.commStart ∈ (NewTssFinish env conf pubKey pp trace).2 := by
  unfold NewTssFinish at h ⊢
  split at h
  · simp at h
  · split at h
    · simp at h
    · split at h
      · simp at h
      · simp_all

theorem NewTssFinish_not_ok_of_commStart_error (env : NewTssEnv)
    (conf : TssConfig) (pubKey : String) (pp : LocalPreParams)
    (trace : List NewTssEvent) (e : String)
    (hc : env.commStart = Except.error e) (s : TssServer) :
    (NewTssFinish env conf pubKey pp trace).1 ≠ Except.ok s := by
  unfold NewTssFinish
  split
  · simp
  · split
    · simp
    · split
      · simp
      · simp_all

theorem NewTssGenerate_mem_generate (env : NewTssEnv) (conf : TssConfig)
    (pubKey : String) (trace : List NewTssEvent) :
    NewTssEvent.generatePreParams conf.preParamTimeout ∈
      (NewTssGenerate env conf pubKey trace).2 := by
  unfold NewTssGenerate
  split
  · simp
  · exact NewTssFinish_trace_mono _ _ _ _ _ _ (by simp)

theorem NewTssGenerate_invalid (env : NewTssEnv) (conf : TssConfig)
    (pubKey : String) (trace : List NewTssEvent) (q : LocalPreParams)
    (hq : env.generatePreParams conf.preParamTimeout = Except.ok q)
    (hqv : q.valid = false) :
    (NewTssGenerate env conf pubKey trace).1 =
      Except.error "invalid preparams" := by
  unfold NewTssGenerate
  rw [hq]
  unfold NewTssFinish
  simp [hqv]

theorem NewTssGenerate_fst_ok (env : NewTssEnv) (conf : TssConfig)
    (pubKey : String) (trace : List NewTssEvent) (s : TssServer)
    (h : (NewTssGenerate env conf pubKey trace).1 = Except.ok s) :
    s.preParams.valid = true := by
  unfold NewTssGenerate at h
  split at h
  · simp at h
  · obtain ⟨h1, h2⟩ := NewTssFinish_fst_ok _ _ _ _ _ _ h
    rw [h1]
    exact h2

theorem NewTssGenerate_commStart_of_ok (env : NewTssEnv) (conf : TssConfig)
    (pubKey : String) (trace : List NewTssEvent) (s : TssServer)
    (h : (NewTssGenerate env conf pubKey trace).1 = Except.ok s) :
    NewTssEvent.commStart ∈ (NewTssGenerate env conf pubKey trace).2 := by
  unfold NewTssGenerate at h ⊢
  split at h
  · simp at h
  · simp_all [NewTssFinish_commStart_of_ok _ _ _ _ _ _ h]

theorem NewTssGenerate_not_ok_of_commStart_error (env : NewTssEnv)
    (conf : TssConfig) (pubKey : String) (trace : List NewTssEvent)
    (e : String) (hc : env.commStart = Except.error e) (s : TssServer) :
    (NewTssGenerate env conf pubKey trace).1 ≠ Except.ok s := by
  unfold NewTssGenerate
  split
  · simp
  · exact NewTssFinish_not_ok_of_commStart_error _ _ _ _ _ _ hc _

theorem NewTss_reduce_none (env : NewTssEnv) (cmd : List String)
    (conf : TssConfig) (pubKey : String)
    (h₁ : env.marshalPubKey = Except.ok pubKey)
    (h₂ : env.newFileStateMgr = Except.ok ())
    (h₃ : env.newCommunication (bootstrapList env cmd) = Except.ok ()) :
    NewTss env cmd conf none =
      NewTssGenerate env conf pubKey
        [NewTssEvent.newCommunication (bootstrapList env cmd)] := by
  unfold NewTss
  rw [h₁, h₂, h₃]

theorem NewTss_reduce_some_invalid (env : NewTssEnv) (cmd : List String)
    (conf : TssConfig) (pubKey : String) (p : LocalPreParams)
    (h₁ : env.marshalPubKey = Except.ok pubKey)
    (h₂ : env.newFileStateMgr = Except.ok ())
    (h₃ : env.newCommunication (bootstrapList env cmd) = Except.ok ())
    (hpv : p.valid = false) :
    NewTss env cmd conf (some p) =
      NewTssGenerate env conf pubKey
        [NewTssEvent.newCommunication (bootstrapList env cmd)] := by
  unfold NewTss
  rw [h₁, h₂, h₃]
  simp [hpv]

theorem NewTss_reduce_some_valid (env : NewTssEnv) (cmd : List String)
    (conf : TssConfig) (pubKey : String) (p : LocalPreParams)
    (h₁ : env.marshalPubKey = Except.ok pubKey)
    (h₂ : env.newFileStateMgr = Except.ok ())
    (h₃ : env.newCommunication (bootstrapList env cmd) = Except.ok ())
    (hpv : p.valid = true) :
    NewTss env cmd conf (some p) =
      NewTssFinish env conf pubKey p
        [NewTssEvent.newCommunication (bootstrapList env cmd)] := by
  unfold NewTss
  rw [h₁, h₂, h₃]
  simp [hpv]

/-- C4: in a constructor run that reaches the pre-parameter block (the
pubkey marshalling, the state manager and the communication layer all
succeed), nil or invalid supplied pre-parameters cause fresh ones to be
generated with the configured PreParamTimeout; whenever the generated
pre-parameters still fail validation the constructor returns the invalid
preparams error; and a constructed server always holds valid
pre-parameters, so invalid pre-parameters are never deferred to a
session. -/
theorem NewTss_preParams_validated (env : NewTssEnv) (cmd : List String)
    (conf : TssConfig) (preParams : Option LocalPreParams) (pubKey : String)
    (h₁ : env.marshalPubKey = Except.ok pubKey)
    (h₂ : env.newFileStateMgr = Except.ok ())
    (h₃ : env.newCommunication (bootstrapList env cmd) = Except.ok ()) :
    ((preParams = none ∨ ∃ p, preParams = some p ∧ p.valid = false) →
      NewTssEvent.generatePreParams conf.preParamTimeout ∈
        (NewTss env cmd conf preParams).2) ∧
      (∀ q, env.generatePreParams conf.preParamTimeout = Except.ok q →
        q.valid = false →
        (preParams = none ∨ ∃ p, preParams = some p ∧ p.valid = false) →
        (NewTss env cmd conf preParams).1 =
          Except.error "invalid preparams") ∧
      (∀ s, (NewTss env cmd conf preParams).1 = Except.ok s →
        s.preParams.valid = true) := by
  refine ⟨?_, ?_, ?_⟩
  · rintro (rfl | ⟨p, rfl, hpv⟩)
    · rw [NewTss_reduce_none env cmd conf pubKey h₁ h₂ h₃]
      exact NewTssGenerate_mem_generate _ _ _ _
    · rw [NewTss_reduce_some_invalid env cmd conf pubKey p h₁ h₂ h₃ hpv]
      exact NewTssGenerate_mem_generate _ _ _ _
  · rintro q hq hqv (rfl | ⟨p, rfl, hpv⟩)
    · rw [NewTss_reduce_none env cmd conf pubKey h₁ h₂ h₃]
      exact NewTssGenerate_invalid _ _ _ _ _ hq hqv
    · rw [NewTss_reduce_some_invalid env cmd conf pubKey p h₁ h₂ h₃ hpv]
      exact NewTssGenerate_invalid _ _ _ _ _ hq hqv
  · intro s hs
    match preParams with
    | none =>
      rw [NewTss_reduce_none env cmd conf pubKey h₁ h₂ h₃] at hs
      exact NewTssGenerate_fst_ok _ _ _ _ _ hs
    | some p =>
      by_cases hpv : p.valid = true
      · rw [NewTss_reduce_some_valid env cmd conf pubKey p h₁ h₂ h₃ hpv] at hs
        obtain ⟨hsp, hv⟩ := NewTssFinish_fst_ok _ _ _ _ _ _ hs
        rw [hsp]
        exact hv
      · rw [NewTss_reduce_some_invalid env cmd conf pubKey p h₁ h₂ h₃
          (by simpa using hpv)] at hs
        exact NewTssGenerate_fst_ok _ _ _ _ _ hs

/-- Witness for C4: with nil supplied pre-parameters and a fully successful
environment, the generation call with the configured timeout appears in the
constructor trace. -/
theorem NewTss_preParams_validated_witness :
    NewTssEvent.generatePreParams demoConf.preParamTimeout ∈
      (NewTss okNewTssEnv ["cmdpeer"] demoConf none).2 := by
  have h := NewTss_preParams_validated okNewTssEnv ["cmdpeer"] demoConf none
    "bech32pubkey" rfl rfl rfl
  exact h.1 (Or.inl rfl)

theorem NewTssFinish_no_setup (env : NewTssEnv) (conf : TssConfig)
    (pubKey : String) (pp : LocalPreParams) (trace : List NewTssEvent)
    (htr : NewTssEvent.setupBech32Prefix ∉ trace) :
    NewTssEvent.setupBech32Prefix ∉
      (NewTssFinish env conf pubKey pp trace).2 := by
  unfold NewTssFinish
  split
  · exact htr
  · split
    · exact htr
    · split
      · simp [htr]
      · simp [htr]

theorem NewTssGenerate_no_setup (env : NewTssEnv) (conf : TssConfig)
    (pubKey : String) (trace : List NewTssEvent)
    (htr : NewTssEvent.setupBech32Prefix ∉ trace) :
    NewTssEvent.setupBech32Prefix ∉
      (NewTssGenerate env conf pubKey trace).2 := by
  unfold NewTssGenerate
  split
  · simp [htr]
  · exact NewTssFinish_no_setup _ _ _ _ _ (by simp [htr])

theorem NewTss_no_setup (env : NewTssEnv) (cmd : List String)
    (conf : TssConfig) (pp : Option LocalPreParams) :
    NewTssEvent.setupBech32Prefix ∉ (NewTss env cmd conf pp).2 := by
  unfold NewTss
  split
  · simp
  · split
    · simp
    · split
      · simp
      · split
        · exact NewTssGenerate_no_setup _ _ _ _ (by simp)
        · split
          · exact NewTssFinish_no_setup _ _ _ _ _ (by simp)
          · exact NewTssGenerate_no_setup _ _ _ _ (by simp)

/-- C5 counterexample: a concrete fully successful server construction
whose recorded external-call trace contains no call to
`SetupBech32Prefix`, so the setup is not called from the server
constructor. -/
theorem SetupBech32_not_called_from_NewTss :
    (NewTss okNewTssEnv ["cmdpeer"] demoConf (some ⟨true⟩)).1 =
        Except.ok demoServer ∧
      decide (NewTssEvent.setupBech32Prefix ∈
        (NewTss okNewTssEnv ["cmdpeer"] demoConf (some ⟨true⟩)).2) = false :=
  ⟨rfl, rfl⟩

/-- C5 (amended): `SetupBech32Prefix` is idempotent, because it writes
fixed constant prefixes, so a repeated call leaves the global config
unchanged; but it is not called from the server constructor `NewTss` (no
constructor run records such a call), and its body contains no guard
against repeated calls. -/
theorem SetupBech32_idempotent_not_in_NewTss :
    (∀ c : Bech32Config,
        SetupBech32Prefix (SetupBech32Prefix c) = SetupBech32Prefix c) ∧
      ∀ (env : NewTssEnv) (cmd : List String) (conf : TssConfig)
        (pp : Option LocalPreParams) (x : NewTssEvent),
        x ∈ (NewTss env cmd conf pp).2 →
        x ≠ NewTssEvent.setupBech32Prefix :=
  ⟨fun _ => rfl,
    fun env cmd conf pp _ hx hcon =>
      NewTss_no_setup env cmd conf pp (hcon ▸ hx)⟩

/-- C6: the p2p transport is started inside the server constructor: a
failing `comm.Start` makes every `NewTss` run fail, a successful run
records the `comm.Start` call; and `Start()` performs no startup work, it
returns nil and leaves every field of the server unchanged. -/
theorem NewTss_starts_transport_Start_noop :
    (∀ (env : NewTssEnv) (cmd : List String) (conf : TssConfig)
        (pp : Option LocalPreParams),
      (∀ s, (NewTss env cmd conf pp).1 = Except.ok s →
        NewTssEvent.commStart ∈ (NewTss env cmd conf pp).2) ∧
      (∀ e, env.commStart = Except.error e →
        ∀ s, (NewTss env cmd conf pp).1 ≠ Except.ok s)) ∧
    (∀ t : TssServer, TssServer.Start t = (none, t)) := by
  refine ⟨fun env cmd conf pp => ⟨?_, ?_⟩, fun _ => rfl⟩
  · intro s h
    unfold NewTss at h ⊢
    split at h
    · simp at h
    next pubKey hm =>
      split at h
      · simp at h
      next u hf =>
        split at h
        · simp at h
        next u2 hc =>
          split at h
          · exact NewTssGenerate_commStart_of_ok _ _ _ _ _ h
          next p =>
            split at h
            next hpv =>
              rw [if_pos hpv]
              exact NewTssFinish_commStart_of_ok _ _ _ _ _ _ h
            next hpv =>
              rw [if_neg hpv]
              exact NewTssGenerate_commStart_of_ok _ _ _ _ _ h
  · intro e hc s hcon
    unfold NewTss at hcon
    split at hcon
    · simp at hcon
    · split at hcon
      · simp at hcon
      · split at hcon
        · simp at hcon
        · split at hcon
          · exact NewTssGenerate_not_ok_of_commStart_error _ _ _ _ _ hc _ hcon
          · split at hcon
            · exact
                NewTssFinish_not_ok_of_commStart_error _ _ _ _ _ _ hc _ hcon
            · exact
                NewTssGenerate_not_ok_of_commStart_error _ _ _ _ _ hc _ hcon

theorem NewTssGenerate_trace_mono (env : NewTssEnv) (conf : TssConfig)
    (pubKey : String) (trace : List NewTssEvent) (x : NewTssEvent)
    (hx : x ∈ trace) : x ∈ (NewTssGenerate env conf pubKey trace).2 := by
  unfold NewTssGenerate
  split
  · simp [hx]
  · exact NewTssFinish_trace_mono _ _ _ _ _ _ (by simp [hx])

theorem NewTss_comm_error (env : NewTssEnv) (cmd : List String)
    (conf : TssConfig) (pp : Option LocalPreParams) (pubKey : String)
    (e : String)
    (h₁ : env.marshalPubKey = Except.ok pubKey)
    (h₂ : env.newFileStateMgr = Except.ok ())
    (hc : env.newCommunication (bootstrapList env cmd) = Except.error e) :
    NewTss env cmd conf pp =
      (Except.error ("fail to create communication layer: " ++ e),
        [NewTssEvent.newCommunication (bootstrapList env cmd)]) := by
  unfold NewTss
  rw [h₁, h₂, hc]

theorem NewTss_mem_newCommunication (env : NewTssEnv) (cmd : List String)
    (conf : TssConfig) (pp : Option LocalPreParams) (pubKey : String)
    (h₁ : env.marshalPubKey = Except.ok pubKey)
    (h₂ : env.newFileStateMgr = Except.ok ()) :
    NewTssEvent.newCommunication (bootstrapList env cmd) ∈
      (NewTss env cmd conf pp).2 := by
  cases hc : env.newCommunication (bootstrapList env cmd) with
  | error e =>
    rw [NewTss_comm_error env cmd conf pp pubKey e h₁ h₂ hc]
    simp
  | ok u =>
    cases u
    match pp with
    | none =>
      rw [NewTss_reduce_none env cmd conf pubKey h₁ h₂ hc]
      exact NewTssGenerate_trace_mono _ _ _ _ _ (by simp)
    | some p =>
      by_cases hpv : p.valid = true
      · rw [NewTss_reduce_some_valid env cmd conf pubKey p h₁ h₂ hc hpv]
        exact NewTssFinish_trace_mono _ _ _ _ _ _ (by simp)
      · rw [NewTss_reduce_some_invalid env cmd conf pubKey p h₁ h₂ hc
          (by simpa using hpv)]
        exact NewTssGenerate_trace_mono _ _ _ _ _ (by simp)

/-- C7: at construction the bootstrap peer list handed to the
communication layer is the saved address-book peers followed by the
command-line peers when `RetrieveP2PAddresses` succeeds, and exactly the
command-line peers when it fails; a retrieval failure never aborts
construction (with the remaining calls succeeding, the server is still
built). -/
theorem NewTss_bootstrap_list (env : NewTssEnv) (cmd : List String)
    (conf : TssConfig) (pp : Option LocalPreParams) (pubKey : String)
    (h₁ : env.marshalPubKey = Except.ok pubKey)
    (h₂ : env.newFileStateMgr = Except.ok ()) :
    (∀ saved, env.retrieveP2PAddresses = Except.ok saved →
        NewTssEvent.newCommunication (saved ++ cmd) ∈
          (NewTss env cmd conf pp).2) ∧
      (∀ e, env.retrieveP2PAddresses = Except.error e →
        NewTssEvent.newCommunication cmd ∈ (NewTss env cmd conf pp).2) ∧
      (∀ e p, env.retrieveP2PAddresses = Except.error e →
        pp = some p → p.valid = true →
        env.newCommunication cmd = Except.ok () →
        env.getPriKeyRawBytes = Except.ok () →
        env.commStart = Except.ok () →
        (NewTss env cmd conf pp).1 =
          Except.ok ⟨conf, pubKey, p, false, conf.enableMonitor⟩) := by
  refine ⟨?_, ?_, ?_⟩
  · intro saved hr
    have hb : bootstrapList env cmd = saved ++ cmd := by
      unfold bootstrapList
      rw [hr]
    have hmem := NewTss_mem_newCommunication env cmd conf pp pubKey h₁ h₂
    rwa [hb] at hmem
  · intro e hr
    have hb : bootstrapList env cmd = cmd := by
      unfold bootstrapList
      rw [hr]
    have hmem := NewTss_mem_newCommunication env cmd conf pp pubKey h₁ h₂
    rwa [hb] at hmem
  · rintro e p hr rfl hpv hcm hk hcs
    have hb : bootstrapList env cmd = cmd := by
      unfold bootstrapList
      rw [hr]
    rw [NewTss_reduce_some_valid env cmd conf pubKey p h₁ h₂
      (by rw [hb]; exact hcm) hpv]
    unfold NewTssFinish
    rw [hpv, hk, hcs]
    simp

/-- Witness for C7 at the concrete all-successful environment with one
saved address-book peer. -/
theorem NewTss_bootstrap_list_witness :
    NewTssEvent.newCommunication (["savedpeer"] ++ ["cmdpeer"]) ∈
      (NewTss okNewTssEnv ["cmdpeer"] demoConf (some ⟨true⟩)).2 := by
  have h := NewTss_bootstrap_list okNewTssEnv ["cmdpeer"] demoConf
    (some ⟨true⟩) "bech32pubkey" rfl rfl
  exact h.1 ["savedpeer"] rfl

/-- C9: `Stop` is not idempotent: on a server whose stop channel is open,
the first call closes the channel and stops the p2p communication and the
party coordinator, and a second call on the resulting server panics
(close of an already-closed channel, modelled as the error value). -/
theorem Stop_not_idempotent (t : TssServer)
    (h : t.stopChanClosed = false) :
    TssServer.Stop t =
        Except.ok ({ t with stopChanClosed := true },
          [StopEvent.p2pStop, StopEvent.partyCoordinatorStop]) ∧
      TssServer.Stop { t with stopChanClosed := true } =
        Except.error "close of closed channel" := by
  constructor
  · simp [TssServer.Stop, h]
  · simp [TssServer.Stop]

/-- Witness for C9 at the concrete constructed server. -/
theorem Stop_not_idempotent_witness :
    TssServer.Stop demoServer =
        Except.ok ({ demoServer with stopChanClosed := true },
          [StopEvent.p2pStop, StopEvent.partyCoordinatorStop]) ∧
      TssServer.Stop { demoServer with stopChanClosed := true } =
        Except.error "close of closed channel" :=
  Stop_not_idempotent demoServer rfl

end ThorchainTss
